import Mathlib

/-!
Verification of `dev-tools/generate_notice.py`: a shallow embedding of the
license classifier, version normalization, URL derivation, notice/CSV report
writers, and the post-write license validator, together with theorems about
the properties the specification states.

The script is Python 2 (`unicode.lower`, byte-string quote replacement); we
model text as Lean `String`/`List Char`, which agrees with the source on all
ASCII inputs used below.
-/

set_option maxRecDepth 200000
set_option maxHeartbeats 2000000

namespace GenerateNotice

/-- The whitespace class of Python's `\s` on byte strings:
space, tab, newline, carriage return, form feed, vertical tab. -/
def isSpaceChar (c : Char) : Bool :=
  c == ' ' || c == '\t' || c == '\n' || c == '\x0d' || c == '\x0c' || c == '\x0b'

/-- Helper for `collapseWS`: `prevSpace` records whether the previous
character emitted was (part of) a whitespace run. -/
def collapseAux (prevSpace : Bool) : List Char → List Char
  | [] => []
  | c :: cs =>
    if isSpaceChar c then
      if prevSpace then collapseAux true cs
      else ' ' :: collapseAux true cs
    else c :: collapseAux false cs

/-- `re.sub(r"\s+", " ", s)`: every maximal run of whitespace becomes a
single space. -/
def collapseWS (s : List Char) : List Char := collapseAux false s

/-- `content.replace("\xe2\x80\x9c", "\"").replace("\xe2\x80\x9d", "\"")`:
smart double quotes become straight quotes. -/
def fixQuotes : List Char → List Char
  | [] => []
  | c :: cs => (if c == '“' || c == '”' then '"' else c) :: fixQuotes cs

/-- The canonicalization `detect_license_summary` applies to its input before
any pattern check (whitespace collapsing, then quote normalization). -/
def canon (s : String) : String := String.mk (fixQuotes (collapseWS s.data))

/-- Python's substring test `pat in s`. -/
def containsSub (pat : List Char) : List Char → Bool
  | [] => pat.isEmpty
  | c :: rest => pat.isPrefixOf (c :: rest) || containsSub pat rest

/-- `pat in content[0:n]`: the pattern occurs within the first `n` characters
of the (already canonicalized) content. -/
def inWindow (n : Nat) (pat : String) (content : String) : Bool :=
  containsSub pat.data (content.data.take n)

/-- Python's `s.split(sep)` for a one-character separator: no run collapsing,
empty pieces kept, `[""]` on the empty string. -/
def splitOnChar (sep : Char) : List Char → List (List Char)
  | [] => [[]]
  | c :: cs =>
    if c == sep then [] :: splitOnChar sep cs
    else
      match splitOnChar sep cs with
      | r :: rs => (c :: r) :: rs
      | [] => [[c]]

/-- `repo.split("/")` on strings. -/
def splitSlash (s : String) : List String :=
  (splitOnChar '/' s.data).map String.mk

/-! The literal pattern tables, transcribed with the module-load-time
`re.sub(r"\s+", " ", ...)` already applied (so multi-line literals appear
here in collapsed form, including a trailing space where the Python
triple-quoted string ended in whitespace). -/

def APACHE2_LICENSE_TITLES : List String :=
  [ "Apache License 2.0"
  , "Apache License Version 2.0"
  , "Apache License, Version 2.0"
  , "licensed under the Apache 2.0 license"
  , "Apache License ============== _Version 2.0, January 2004_"
  ]

def mitText1 : String :=
  "Permission is hereby granted, free of charge, to any person obtaining a copy of this software and associated documentation files (the \"Software\"), to deal in the Software without restriction, including without limitation the rights to use, copy, modify, merge, publish, distribute, sublicense, and/or sell copies of the Software, and to permit persons to whom the Software is furnished to do so, subject to the following conditions: The above copyright notice and this permission notice shall be included in all copies or substantial portions of the Software. "

def mitText2 : String :=
  "Permission to use, copy, modify, and distribute this software for any purpose with or without fee is hereby granted, provided that the above copyright notice and this permission notice appear in all copies."

def mitText3 : String :=
  "Permission is hereby granted, free of charge, to any person obtaining a copy of this software and associated documentation files (the \x27Software\x27), to deal in the Software without restriction, including without limitation the rights to use, copy, modify, merge, publish, distribute, sublicense, and/or sell copies of the Software, and to permit persons to whom the Software is furnished to do so, subject to the following conditions: "

def mitText4 : String :=
  "Permission is hereby granted, free of charge, to any person obtaining a copy of this software and associated documentation files (the \"Software\"), to deal in the Software without restriction, including without limitation the rights to use, copy, modify, merge, publish, distribute, sublicense, and/or sell copies of the Software, and to permit persons to whom the Software is furnished to do so. THE SOFTWARE IS PROVIDED \"AS IS\", WITHOUT WARRANTY OF ANY KIND, EXPRESS OR IMPLIED, INCLUDING BUT NOT LIMITED TO THE WARRANTIES OF MERCHANTABILITY, FITNESS FOR A PARTICULAR PURPOSE AND NONINFRINGEMENT. IN NO EVENT SHALL THE AUTHORS OR COPYRIGHT HOLDERS BE LIABLE FOR ANY CLAIM, DAMAGES OR OTHER LIABILITY, WHETHER IN AN ACTION OF CONTRACT, TORT OR OTHERWISE, ARISING FROM, OUT OF OR IN CONNECTION WITH THE SOFTWARE OR THE USE OR OTHER DEALINGS IN THE SOFTWARE. "

def MIT_LICENSES : List String := [mitText1, mitText2, mitText3, mitText4]

def bsdCore1 : String :=
  "Redistribution and use in source and binary forms, with or without modification, are permitted provided that the following conditions are met:"

def bsdCore2 : String :=
  "Redistributions of source code must retain the above copyright notice, this list of conditions and the following disclaimer."

def bsdCore3 : String :=
  "Redistributions in binary form must reproduce the above copyright notice, this list of conditions and the following disclaimer in the documentation and/or other materials provided with the distribution. "

def BSD_LICENSE_CONTENTS : List String := [bsdCore1, bsdCore2, bsdCore3]

def bsdNoEndorse1 : String := "Neither the name of"

def bsdNoEndorse2 : String :=
  "nor the names of its contributors may be used to endorse or promote products derived from this software without specific prior written permission."

def BSD_LICENSE_3_CLAUSE : List String := [bsdNoEndorse1, bsdNoEndorse2]

def bsdAdvertising : String :=
  "All advertising materials mentioning features or use of this software must display the following acknowledgement"

def BSD_LICENSE_4_CLAUSE : List String := [bsdAdvertising]

def CC_SA_4_LICENSE_TITLE : List String :=
  ["Creative Commons Attribution-ShareAlike 4.0 International"]

def LGPL_3_LICENSE_TITLE : List String :=
  ["GNU LESSER GENERAL PUBLIC LICENSE Version 3"]

def MPL_LICENSE_TITLES : List String :=
  ["Mozilla Public License Version 2.0", "Mozilla Public License, version 2.0"]

def UNIVERSAL_PERMISSIVE_LICENSE_TITLES : List String :=
  ["The Universal Permissive License (UPL), Version 1.0"]

def ISC_LICENSE_TITLE : List String := ["ISC License"]

/-- `any(sentence in content[0:1000] for sentence in APACHE2_LICENSE_TITLES)`,
on the canonicalized content. -/
def apacheHit (c : String) : Bool :=
  APACHE2_LICENSE_TITLES.any (fun p => inWindow 1000 p c)

/-- `any(sentence in content[0:1000] for sentence in MIT_LICENSES)`. -/
def mitHit (c : String) : Bool :=
  MIT_LICENSES.any (fun p => inWindow 1000 p c)

/-- `all(sentence in content[0:1000] for sentence in BSD_LICENSE_CONTENTS)`. -/
def bsdCoreHit (c : String) : Bool :=
  BSD_LICENSE_CONTENTS.all (fun p => inWindow 1000 p c)

/-- `all(sentence in content[0:1000] for sentence in BSD_LICENSE_3_CLAUSE)`. -/
def bsd3Hit (c : String) : Bool :=
  BSD_LICENSE_3_CLAUSE.all (fun p => inWindow 1000 p c)

/-- `all(sentence in content[0:1000] for sentence in BSD_LICENSE_4_CLAUSE)`. -/
def bsd4Hit (c : String) : Bool :=
  BSD_LICENSE_4_CLAUSE.all (fun p => inWindow 1000 p c)

def mplHit (c : String) : Bool :=
  MPL_LICENSE_TITLES.any (fun p => inWindow 300 p c)

def ccHit (c : String) : Bool :=
  CC_SA_4_LICENSE_TITLE.any (fun p => inWindow 3000 p c)

def lgplHit (c : String) : Bool :=
  LGPL_3_LICENSE_TITLE.any (fun p => inWindow 3000 p c)

def uplHit (c : String) : Bool :=
  UNIVERSAL_PERMISSIVE_LICENSE_TITLES.any (fun p => inWindow 1500 p c)

def iscHit (c : String) : Bool :=
  ISC_LICENSE_TITLE.any (fun p => inWindow 1500 p c)

/-- `detect_license_summary(content)`: canonicalize, then test the pattern
families in the source's fixed priority order, returning the SPDX identifier
of the first family that matches, else "UNKNOWN". -/
def detect_license_summary (content : String) : String :=
  let c := canon content
  if apacheHit c then "Apache-2.0"
  else if mitHit c then "MIT"
  else if bsdCoreHit c then
    if bsd3Hit c then
      if bsd4Hit c then "BSD-4-Clause" else "BSD-3-Clause"
    else "BSD-2-Clause"
  else if mplHit c then "MPL-2.0"
  else if ccHit c then "CC-BY-SA-4.0"
  else if lgplHit c then "LGPL-3.0"
  else if uplHit c then "UPL-1.0"
  else if iscHit c then "ISC"
  else "UNKNOWN"

/-! ### License records and the notice-mode body writer -/

/-- One license record, as built by `gather_modules`: relative file path,
raw contents, classified summary, and the notice files found beside it
(path ↦ contents; the Python dict is modelled as an association list in
iteration order). -/
structure LicenseInfo where
  license_file : String
  license_contents : String
  license_summary : String
  notice_files : List (String × String)
deriving DecidableEq

/-- `os.path.basename` (POSIX): the part after the last slash. -/
def basename (p : String) : String := (splitSlash p).getLastD ""

/-- The banner plus contents written for one notice file:
`"-------{}-----\n".format(os.path.basename(notice_file))` then the
contents. -/
def notice_banner (nf : String × String) : String :=
  "-------" ++ basename nf.1 ++ "-----\n" ++ nf.2

/-- The body `write_notice_file` emits for one license entry, after the
entry's header lines (dependency, version/revision, license type, file path,
separator). Non-Apache entries get the full license text. Apache-2.0 entries
get the fixed stamp; then, unless the license file path is in `SKIP_NOTICE`
(in which case the `continue` skips the rest of this entry, which is exactly
the notice-file loop), every notice file is written under its banner. -/
def lib_body (skip_notice : List String) (lib : LicenseInfo) : String :=
  if lib.license_summary != "Apache-2.0" then lib.license_contents
  else
    "Apache License 2.0\n\n" ++
      (if skip_notice.contains lib.license_file then ""
       else String.join (lib.notice_files.map notice_banner))

/-! ### The post-write validator and the `__main__` sequencing -/

/-- The allow-list checked by the `__main__` validation loop. -/
def ACCEPTED_LICENSES : List String :=
  [ "Apache-2.0", "MIT", "BSD-4-Clause", "BSD-3-Clause", "BSD-2-Clause"
  , "MPL-2.0", "UPL-1.0", "ISC" ]

/-- A module as validation sees it: the license records attached by
`gather_modules` (`module.get("licenses", None)` is falsy exactly when this
list is empty). -/
structure ModuleInfo where
  version : Option String := none
  revision : Option String := none
  licenses : List LicenseInfo := []
deriving DecidableEq

/-- The inner loop `for license in licenses`: raises on the first license
whose summary is not in the allow-list. -/
def check_licenses (path : String) : List LicenseInfo → Except String Unit
  | [] => .ok ()
  | l :: ls =>
    if l.license_summary ∈ ACCEPTED_LICENSES then check_licenses path ls
    else
      .error ("Dependency " ++ path ++ " has invalid " ++ l.license_summary ++
        " license: " ++ l.license_file)

/-- The validation loop at the end of `__main__`: raises (returns `.error`)
on the first module with no licenses (`module.get("licenses", None)` falsy),
or the first license whose summary is not in `ACCEPTED_LICENSES`; otherwise
completes. -/
def validate_modules : List (String × ModuleInfo) → Except String Unit
  | [] => .ok ()
  | (path, m) :: rest =>
    match m.licenses with
    | [] => .error ("Missing license in module: " ++ path)
    | l :: ls =>
      match check_licenses path (l :: ls) with
      | .error e => .error e
      | .ok _ => validate_modules rest

/-- Observable events of the `__main__` flow after argument parsing:
`create_notice` writes the report file, then the validation loop may raise. -/
inductive RunEvent where
  | wroteReport
  | fatal (msg : String)
deriving DecidableEq

/-- The `__main__` sequencing: the report is written by `create_notice`
before the validation loop runs, so a validation failure happens strictly
after the report write. -/
def main_run (modules : List (String × ModuleInfo)) : List RunEvent :=
  RunEvent.wroteReport ::
    (match validate_modules modules with
     | .ok _ => []
     | .error e => [RunEvent.fatal e])

/-! ### Version normalization in `read_go_module_deps` -/

/-- Last index at which `pat` starts inside the list, `Python str.rfind`
style (`none` when absent; `some s.length` for the empty pattern). -/
def lastPrefixPos (pat : List Char) : List Char → Option Nat
  | [] => if pat.isEmpty then some 0 else none
  | c :: rest =>
    match lastPrefixPos pat rest with
    | some j => some (j + 1)
    | none => if pat.isPrefixOf (c :: rest) then some 0 else none

/-- The per-module version handling of `read_go_module_deps`:
strip a `+incompatible` suffix (`rfind` index must be positive), split on
`-`; a three-part `version-timestamp-revision` pseudo-version contributes
its first part as version and third as revision; a final version equal to
`"v0.0.0"` is not recorded. Returns `(Version?, Revision?)`. -/
def normalize_version (version : String) : Option String × Option String :=
  let v1 : String :=
    match lastPrefixPos "+incompatible".data version.data with
    | some i => if 0 < i then String.mk (version.data.take i) else version
    | none => version
  match (splitOnChar '-' v1.data).map String.mk with
  | [a, _, c] => (if a != "v0.0.0" then some a else none, some c)
  | _ => (if v1 != "v0.0.0" then some v1 else none, none)

/-! ### `get_url` and the tabular (CSV) writer -/

/-- `get_url(repo)`: split on `/`; a first word other than `"github.com"`
returns the input unchanged; otherwise the second and third words form the
canonical URL — and when they do not exist, Python raises `IndexError`,
modelled as `.error`. -/
def get_url (repo : String) : Except String String :=
  match splitSlash repo with
  | [] => .ok repo
  | w0 :: rest =>
    if w0 != "github.com" then .ok repo
    else
      match rest with
      | w1 :: w2 :: _ => .ok ("https://github.com/" ++ w1 ++ "/" ++ w2)
      | _ => .error "IndexError: list index out of range"

/-- Dynamically-typed Python values, as far as `write_csv_file` touches
them: strings, lists, and (insertion-ordered) string-keyed dicts. -/
inductive PyVal where
  | str : String → PyVal
  | pylist : List PyVal → PyVal
  | pydict : List (String × PyVal) → PyVal

/-- Python iteration `for x in v`: a dict yields its keys, a list its
elements, a string its one-character substrings. -/
def pyIter : PyVal → List PyVal
  | .pydict kvs => kvs.map (fun kv => PyVal.str kv.1)
  | .pylist xs => xs
  | .str s => s.data.map (fun c => PyVal.str (String.mk [c]))

/-- The `dict.get(key, default)` method; on a non-dict value Python raises
`AttributeError`. -/
def py_get (v : PyVal) (key : String) (dflt : PyVal) : Except String PyVal :=
  match v with
  | .pydict kvs =>
    .ok (((kvs.find? (fun kv => kv.1 == key)).map (fun kv => kv.2)).getD dflt)
  | .str _ => .error "AttributeError: str object has no attribute get"
  | .pylist _ => .error "AttributeError: list object has no attribute get"

/-- Python subscripting `v[key]` with a string key. -/
def py_getitem (v : PyVal) (key : String) : Except String PyVal :=
  match v with
  | .pydict kvs =>
    match kvs.find? (fun kv => kv.1 == key) with
    | some kv => .ok kv.2
    | none => .error ("KeyError: " ++ key)
  | .str _ => .error "TypeError: string indices must be integers"
  | .pylist _ => .error "TypeError: list indices must be integers"

/-- Rendering a value into a CSV cell (only strings occur on the non-error
paths below). -/
def pyCell : PyVal → String
  | .str s => s
  | .pylist _ => "<list>"
  | .pydict _ => "<dict>"

/-- Stable insertion by case-folded key, for
`sorted(dependencies, key=unicode.lower)`. -/
def insertByLower (k : String) : List String → List String
  | [] => [k]
  | x :: xs =>
    if k.toLower < x.toLower then k :: x :: xs else x :: insertByLower k xs

/-- `sorted(keys, key=unicode.lower)`. -/
def sortByLower : List String → List String
  | [] => []
  | x :: xs => insertByLower x (sortByLower xs)

/-- `write_csv_file(csvwriter, dependencies)`: header row, then for each key
in case-insensitive sorted order, for each `lib in dependencies[key]`
(Python iteration over the stored value), one row
`[key, get_url(key), lib.get("version",""), lib.get("revision",""), lib["license_summary"]]`,
with the argument expressions evaluated left to right. The result is the
list of rows written, or the exception message that aborts the write. -/
def write_csv_file (dependencies : List (String × PyVal)) :
    Except String (List (List String)) := do
  let keys := sortByLower (dependencies.map (fun kv => kv.1))
  let rows ← keys.foldlM (fun acc key => do
      let dep := ((dependencies.find? (fun kv => kv.1 == key)).map
        (fun kv => kv.2)).getD (PyVal.pylist [])
      (pyIter dep).foldlM (fun acc2 lib => do
          let url ← get_url key
          let v ← py_get lib "version" (PyVal.str "")
          let r ← py_get lib "revision" (PyVal.str "")
          let lic ← py_getitem lib "license_summary"
          pure (acc2 ++ [[key, url, pyCell v, pyCell r, pyCell lic]])) acc)
    ([] : List (List String))
  pure ([["name", "url", "version", "revision", "license"]] ++ rows)

/-- The module record `gather_modules` builds for the dependency
`github.com/example/foo` with a single MIT-classified `LICENSE` file and no
version or revision: `create_notice` passes the whole modules mapping
(`{path: module-dict}`) to `write_csv_file` as `dependencies`. -/
def exampleFooLicense : PyVal :=
  .pydict
    [ ("license_file", .str "github.com/example/foo/LICENSE")
    , ("license_contents", .str "MIT license text")
    , ("license_summary", .str "MIT")
    , ("notice_files", .pydict [])
    ]

def exampleFooModule : PyVal :=
  .pydict
    [ ("Dir", .str "/go/pkg/mod/github.com/example/foo")
    , ("Path", .str "github.com/example/foo")
    , ("licenses", .pylist [exampleFooLicense])
    ]

/-! ### Concrete license texts used in counterexamples and witnesses -/

/-- Text holding all three BSD core clauses and both no-endorsement
literals. -/
def bsd3Text : String :=
  bsdCore1 ++ " " ++ bsdCore2 ++ " " ++ bsdCore3 ++ bsdNoEndorse1 ++ " " ++ bsdNoEndorse2

/-- Text `bsd3Text` plus the advertising clause literal. -/
def bsd4Text : String := bsd3Text ++ " " ++ bsdAdvertising

/-- Text holding only the three BSD core clauses. -/
def bsd2Text : String := bsdCore1 ++ " " ++ bsdCore2 ++ " " ++ bsdCore3

/-- Text `bsd3Text` preceded by an Apache-2.0 title literal. -/
def bsdApacheText : String := "Apache License 2.0 " ++ bsd3Text

/-- Text `bsd3Text` preceded by an MIT phrasing. -/
def bsdMitText : String := mitText2 ++ " " ++ bsd3Text

/-- An MIT phrasing preceded by an Apache-2.0 title literal. -/
def mitApacheText : String := "Apache License 2.0 " ++ mitText2

/-- An MIT phrasing surrounded by unrelated text. -/
def mitSurroundedText : String :=
  "Copyright (c) 2020 Example Authors. All rights reserved.\n\n" ++ mitText2 ++
    "\n\nTHE SOFTWARE IS PROVIDED \"AS IS\" WITHOUT WARRANTY OF ANY KIND."

/-! ### Theorems -/

/-- C1 (counterexample): a text whose matching window holds all three BSD
core clause literals, both no-endorsement literals and no advertising
literal need not classify as BSD-3-Clause: an Apache-2.0 title earlier in
the window yields Apache-2.0, and an MIT phrasing yields MIT, because those
families are tested first. -/
theorem c1_bsd_counterexample :
    (bsdCoreHit (canon bsdApacheText) = true ∧ bsd3Hit (canon bsdApacheText) = true ∧
      bsd4Hit (canon bsdApacheText) = false ∧
      detect_license_summary bsdApacheText = "Apache-2.0" ∧
      detect_license_summary bsdApacheText ≠ "BSD-3-Clause") ∧
    (bsdCoreHit (canon bsdMitText) = true ∧ bsd3Hit (canon bsdMitText) = true ∧
      bsd4Hit (canon bsdMitText) = false ∧
      detect_license_summary bsdMitText = "MIT" ∧
      detect_license_summary bsdMitText ≠ "BSD-3-Clause") := by
  refine ⟨⟨by decide, by decide, by decide, by decide, by decide⟩,
    ⟨by decide, by decide, by decide, by decide, by decide⟩⟩

/-- C1 (amended): provided no Apache-2.0 title literal and no MIT phrasing
matches its window, a text whose window holds all three BSD core clause
literals classifies as BSD-4-Clause when both no-endorsement literals and
the advertising literal are present, BSD-3-Clause when the no-endorsement
literals are present and the advertising literal is not, and BSD-2-Clause
when the no-endorsement literals are not both present. -/
theorem bsd_family_classification (t : String)
    (h1 : apacheHit (canon t) = false) (h2 : mitHit (canon t) = false)
    (h3 : bsdCoreHit (canon t) = true) :
    detect_license_summary t =
      if bsd3Hit (canon t) then
        if bsd4Hit (canon t) then "BSD-4-Clause" else "BSD-3-Clause"
      else "BSD-2-Clause" := by
  simp [detect_license_summary, h1, h2, h3]

/-- Witness for `bsd_family_classification` at concrete BSD texts. -/
theorem bsd_family_classification_witness :
    detect_license_summary bsd3Text = "BSD-3-Clause" ∧
    detect_license_summary bsd4Text = "BSD-4-Clause" ∧
    detect_license_summary bsd2Text = "BSD-2-Clause" := by
  refine ⟨?_, ?_, ?_⟩
  · rw [bsd_family_classification bsd3Text (by decide) (by decide) (by decide)]
    decide
  · rw [bsd_family_classification bsd4Text (by decide) (by decide) (by decide)]
    decide
  · rw [bsd_family_classification bsd2Text (by decide) (by decide) (by decide)]
    decide

/-- C2 (counterexample): a text holding an MIT phrasing inside the matching
window does not always classify as MIT: an Apache-2.0 title also inside the
window wins, because the Apache family is tested first. -/
theorem c2_mit_counterexample :
    mitHit (canon mitApacheText) = true ∧
    detect_license_summary mitApacheText = "Apache-2.0" ∧
    detect_license_summary mitApacheText ≠ "MIT" := by
  refine ⟨by decide, by decide, by decide⟩

/-- C2 (amended): a text holding one of the four MIT literal phrasings
inside the matching window classifies as MIT, regardless of any other
surrounding text and of total length, provided no Apache-2.0 title literal
also matches its window. -/
theorem mit_classification (t : String)
    (h1 : apacheHit (canon t) = false) (h2 : mitHit (canon t) = true) :
    detect_license_summary t = "MIT" := by
  simp [detect_license_summary, h1, h2]

/-- Witness for `mit_classification`: an MIT phrasing surrounded by
unrelated text. -/
theorem mit_classification_witness :
    detect_license_summary mitSurroundedText = "MIT" :=
  mit_classification mitSurroundedText (by decide) (by decide)

/-- C3: in tabular mode `create_notice` passes the modules mapping
(path to module record) to `write_csv_file`, whose loop iterates the stored
value and calls `.get` on each element; iterating a module record yields its
key strings, so the run aborts with `AttributeError` and never emits the
claimed row. Had the stored value been the list of license records the loop
body assumes, the claimed row would be produced, as the second conjunct
shows. -/
theorem csv_mode_crashes :
    write_csv_file [("github.com/example/foo", exampleFooModule)] =
      Except.error "AttributeError: str object has no attribute get" ∧
    write_csv_file [("github.com/example/foo", PyVal.pylist [exampleFooLicense])] =
      Except.ok
        [ ["name", "url", "version", "revision", "license"]
        , ["github.com/example/foo", "https://github.com/example/foo", "", "", "MIT"] ] := by
  exact ⟨rfl, rfl⟩

/-- Helper: the inner validation loop raises exactly when some license in
the list has a summary outside the allow-list. -/
theorem check_licenses_error_iff (path : String) (ls : List LicenseInfo) :
    (∃ e, check_licenses path ls = Except.error e) ↔
      ∃ l ∈ ls, l.license_summary ∉ ACCEPTED_LICENSES := by
  induction ls with
  | nil => simp [check_licenses]
  | cons l ls ih =>
    by_cases hl : l.license_summary ∈ ACCEPTED_LICENSES
    · rw [show check_licenses path (l :: ls) = check_licenses path ls from by
        simp [check_licenses, hl]]
      rw [ih]
      constructor
      · rintro ⟨x, hx, hbad⟩
        exact ⟨x, List.mem_cons_of_mem _ hx, hbad⟩
      · rintro ⟨x, hx, hbad⟩
        rcases List.mem_cons.mp hx with rfl | hx2
        · exact absurd hl hbad
        · exact ⟨x, hx2, hbad⟩
    · constructor
      · intro _
        exact ⟨l, List.mem_cons_self l ls, hl⟩
      · intro _
        exact ⟨"Dependency " ++ path ++ " has invalid " ++ l.license_summary ++
          " license: " ++ l.license_file, by simp [check_licenses, hl]⟩

/-- Helper: the validation loop over all modules raises exactly when some
module has no licenses or some attached license summary is outside the
allow-list. -/
theorem validate_modules_error_iff (ms : List (String × ModuleInfo)) :
    (∃ e, validate_modules ms = Except.error e) ↔
      ∃ p m, (p, m) ∈ ms ∧ (m.licenses = [] ∨
        ∃ l ∈ m.licenses, l.license_summary ∉ ACCEPTED_LICENSES) := by
  induction ms with
  | nil => simp [validate_modules]
  | cons pm rest ih =>
    obtain ⟨path, m⟩ := pm
    cases hml : m.licenses with
    | nil =>
      refine iff_of_true ⟨"Missing license in module: " ++ path,
          by simp [validate_modules, hml]⟩
        ⟨path, m, List.mem_cons_self _ _, Or.inl hml⟩
    | cons l0 ls0 =>
      cases hc : check_licenses path (l0 :: ls0) with
      | error e =>
        refine iff_of_true ⟨e, by simp [validate_modules, hml, hc]⟩ ?_
        refine ⟨path, m, List.mem_cons_self _ _, Or.inr ?_⟩
        have hex := (check_licenses_error_iff path (l0 :: ls0)).mp ⟨e, hc⟩
        rw [hml]
        exact hex
      | ok u =>
        rw [show validate_modules ((path, m) :: rest) = validate_modules rest from by
          simp [validate_modules, hml, hc]]
        rw [ih]
        constructor
        · rintro ⟨p, x, hx, hcond⟩
          exact ⟨p, x, List.mem_cons_of_mem _ hx, hcond⟩
        · rintro ⟨p, x, hx, hcond⟩
          rcases List.mem_cons.mp hx with heq | hx2
          · exfalso
            obtain ⟨hp, hxm⟩ : p = path ∧ x = m := by
              simpa using heq
            rw [hxm] at hcond
            rcases hcond with hnil | ⟨l, hlmem, hbad⟩
            · rw [hml] at hnil
              exact absurd hnil (by simp)
            · obtain ⟨e, he⟩ := (check_licenses_error_iff path (l0 :: ls0)).mpr
                (by rw [← hml]; exact ⟨l, hlmem, hbad⟩)
              rw [hc] at he
              simp at he
          · exact ⟨p, x, hx2, hcond⟩

/-- C4: the run raises a fatal error exactly when some module has no
attached licenses or some attached license summary is outside the accepted
allow-list, and the report-write event precedes any such failure (the
report is always written first). -/
theorem validator_gate (ms : List (String × ModuleInfo)) :
    ((∃ e, RunEvent.fatal e ∈ main_run ms) ↔
      ∃ p m, (p, m) ∈ ms ∧ (m.licenses = [] ∨
        ∃ l ∈ m.licenses, l.license_summary ∉ ACCEPTED_LICENSES)) ∧
    (main_run ms).head? = some RunEvent.wroteReport := by
  have hbridge : ∀ e, (RunEvent.fatal e ∈ main_run ms) ↔ validate_modules ms = Except.error e := by
    intro e
    unfold main_run
    cases h : validate_modules ms with
    | ok u => simp
    | error e2 => simp [eq_comm]
  constructor
  · constructor
    · rintro ⟨e, he⟩
      exact (validate_modules_error_iff ms).mp ⟨e, (hbridge e).mp he⟩
    · intro hcond
      obtain ⟨e, he⟩ := (validate_modules_error_iff ms).mpr hcond
      exact ⟨e, (hbridge e).mpr he⟩
  · rfl

/-- C5: classification is invariant under whitespace reformatting: two
texts with the same whitespace-collapsed form classify identically, since
the classifier collapses whitespace before every pattern check. -/
theorem classification_ws_invariant (a b : String)
    (h : collapseWS a.data = collapseWS b.data) :
    detect_license_summary a = detect_license_summary b := by
  have hc : canon a = canon b := by
    unfold canon
    rw [h]
  unfold detect_license_summary
  rw [hc]

/-- Witness for `classification_ws_invariant` at two reformattings of the
same text. -/
theorem classification_ws_invariant_witness :
    collapseWS "MIT\n\n\tLicense".data = collapseWS "MIT License".data ∧
    detect_license_summary "MIT\n\n\tLicense" = detect_license_summary "MIT License" :=
  ⟨by decide, classification_ws_invariant _ _ (by decide)⟩

/-- C6: an Apache-2.0 entry whose file path is not in the skip-list gets
the fixed stamp followed by every notice file under its banner — and not
the raw license text, which the emitted string nowhere references; an entry
with any other identifier gets its full license text. -/
theorem apache_notice_body (skip_notice : List String) (lib : LicenseInfo) :
    (lib.license_summary = "Apache-2.0" →
      lib.license_file ∉ skip_notice →
      lib_body skip_notice lib =
        "Apache License 2.0\n\n" ++ String.join (lib.notice_files.map notice_banner)) ∧
    (lib.license_summary ≠ "Apache-2.0" →
      lib_body skip_notice lib = lib.license_contents) := by
  constructor
  · intro h1 h2
    simp [lib_body, h1, h2]
  · intro h1
    simp [lib_body, bne_iff_ne, h1]

/-- An Apache-2.0 license record with one notice file. -/
def exampleApacheLib : LicenseInfo :=
  { license_file := "github.com/x/y/LICENSE"
  , license_contents := "Apache License Version 2.0 body text"
  , license_summary := "Apache-2.0"
  , notice_files := [("github.com/x/y/NOTICE", "Notice text\n")] }

/-- An MIT license record with no notice files. -/
def exampleMitLib : LicenseInfo :=
  { license_file := "github.com/x/y/LICENSE"
  , license_contents := "MIT body text"
  , license_summary := "MIT"
  , notice_files := [] }

/-- Witness for `apache_notice_body` at concrete records. -/
theorem apache_notice_body_witness :
    lib_body [] exampleApacheLib = "Apache License 2.0\n\n-------NOTICE-----\nNotice text\n" ∧
    lib_body [] exampleMitLib = "MIT body text" := by
  constructor
  · rw [(apache_notice_body [] exampleApacheLib).1 rfl (by simp)]
    rfl
  · rw [(apache_notice_body [] exampleMitLib).2 (by decide)]
    rfl

/-- C7 (counterexample): a skip-listed entry does not emit nothing after
its header lines: a skip-listed Apache-2.0 entry still emits the fixed
stamp, and a skip-listed non-Apache entry emits its full license text (the
skip check is only reached on the Apache branch). -/
theorem c7_skip_counterexample :
    lib_body ["github.com/x/y/LICENSE"] exampleApacheLib = "Apache License 2.0\n\n" ∧
    "Apache License 2.0\n\n" ≠ "" ∧
    lib_body ["github.com/x/y/LICENSE"] exampleMitLib = "MIT body text" := by
  refine ⟨rfl, by decide, rfl⟩

/-- C7 (amended): only Apache-2.0 entries consult the skip-list: a
skip-listed Apache-2.0 entry emits exactly the fixed stamp with no
notice-file content after it, while an entry with any other identifier
emits its full license text regardless of the skip-list. -/
theorem skip_notice_body (skip_notice : List String) (lib : LicenseInfo) :
    (lib.license_summary = "Apache-2.0" →
      lib.license_file ∈ skip_notice →
      lib_body skip_notice lib = "Apache License 2.0\n\n") ∧
    (lib.license_summary ≠ "Apache-2.0" →
      lib_body skip_notice lib = lib.license_contents) := by
  constructor
  · intro h1 h2
    simp [lib_body, h1, h2]
  · intro h1
    simp [lib_body, bne_iff_ne, h1]

/-- Witness for `skip_notice_body` at concrete records. -/
theorem skip_notice_body_witness :
    lib_body ["github.com/x/y/LICENSE"] exampleApacheLib = "Apache License 2.0\n\n" ∧
    lib_body ["a/LICENSE"] exampleMitLib = "MIT body text" := by
  constructor
  · exact (skip_notice_body _ exampleApacheLib).1 rfl (by decide)
  · exact (skip_notice_body _ exampleMitLib).2 (by decide)

/-- C8: a pseudo-version splits into semantic version and revision hash,
and a literal zero version is recorded as absent. -/
theorem version_normalization :
    normalize_version "v1.2.3-0.20200101000000-abcdef123456" =
      (some "v1.2.3", some "abcdef123456") ∧
    normalize_version "v0.0.0" = (none, none) := by
  exact ⟨rfl, rfl⟩

/-- C9: a path splitting as `github.com`, owner, repository and anything
further maps to the canonical GitHub URL; a path whose first segment is
anything else is returned unchanged. -/
theorem github_url (s : String) :
    (∀ owner repo rest, splitSlash s = "github.com" :: owner :: repo :: rest →
      get_url s = Except.ok ("https://github.com/" ++ owner ++ "/" ++ repo)) ∧
    (∀ w0 rest, splitSlash s = w0 :: rest → w0 ≠ "github.com" →
      get_url s = Except.ok s) := by
  constructor
  · intro owner repo rest h
    simp [get_url, h]
  · intro w0 rest h hne
    simp [get_url, h, bne_iff_ne, hne]

/-- Witness for `github_url` at a GitHub path and a non-GitHub path. -/
theorem github_url_witness :
    get_url "github.com/example/foo/bar" = Except.ok "https://github.com/example/foo" ∧
    get_url "golang.org/x/tools" = Except.ok "golang.org/x/tools" := by
  constructor
  · exact (github_url _).1 "example" "foo" ["bar"] rfl
  · exact (github_url _).2 "golang.org" ["x", "tools"] rfl (by decide)

/-- C10: a path whose first segment is `github.com` but with fewer than
three slash-separated segments makes `get_url` fail with an out-of-range
index access instead of returning a URL. -/
theorem github_url_short_path (s : String) (rest : List String)
    (h : splitSlash s = "github.com" :: rest) (hlen : rest.length < 2) :
    get_url s = Except.error "IndexError: list index out of range" := by
  rcases rest with _ | ⟨w1, _ | ⟨w2, rs⟩⟩
  · simp [get_url, h]
  · simp [get_url, h]
  · simp [List.length_cons] at hlen
    omega

/-- Witness for `github_url_short_path` at one- and two-segment inputs. -/
theorem github_url_short_path_witness :
    get_url "github.com" = Except.error "IndexError: list index out of range" ∧
    get_url "github.com/owner" = Except.error "IndexError: list index out of range" := by
  constructor
  · exact github_url_short_path _ [] rfl (by decide)
  · exact github_url_short_path _ ["owner"] rfl (by decide)

end GenerateNotice
